import Mathlib

/-!
Verification of the Process Supervisor core of `gui.py`
(`LiveRecorderGUI` plus its output-relay thread).

The embedding translates the supervisor-relevant state and methods of the
`LiveRecorderGUI` class into pure Lean functions over an explicit state
record.  Externally visible actions (log lines pushed to the log widget,
status-label updates, `Popen`, `terminate()`, `kill()` calls) are recorded
in an append-only event trace inside the state, in the order the Python
code performs them.  Exogenous behaviour (whether `Popen` succeeds, whether
the child exits within the 3-second grace period, what `readline` returns)
is passed in as parameters.  The `root.after(0, ...)` marshalling delivers
callbacks to the single Tk thread in order; the model applies them inline,
in that order.  The timestamp string that `_log` prepends for display is
abstracted away; timestamps that the source embeds in the message text
itself (via f-strings) are kept as explicit `ts` parameters.
-/

/-- Log severity: `_log`'s `level` argument, `"info"` (default) or `"error"`. -/
inductive Severity
  | info
  | error
  deriving DecidableEq

/-- A log line delivered to the log sink: message text plus severity. -/
structure LogLine where
  text : String
  level : Severity
  deriving DecidableEq

/-- Externally visible actions of the supervisor, in program order. -/
inductive Event
  | log (line : LogLine)
  | status (label : String)
  | popen (exe : String) (arg : String)
  | terminate
  | kill
  deriving DecidableEq

/-- Python `str.rstrip()` on the ASCII whitespace characters it strips. -/
def isPyWhitespace (c : Char) : Bool :=
  c = ' ' || c = '\t' || c = '\n' || c = '\r' || c = '\x0b' || c = '\x0c'

/-- Characters allowed in the body of the ANSI pattern `\x1b\[[0-9;]*m`. -/
def isAnsiBody (c : Char) : Bool :=
  ('0' ≤ c && c ≤ '9') || c = ';'

/-- After `ESC [`, consume `[0-9;]*` then `m`; `none` when the regex fails. -/
def ansiSkipBody : List Char → Option (List Char)
  | [] => none
  | c :: cs =>
    if c = 'm' then some cs
    else if isAnsiBody c then ansiSkipBody cs
    else none

/-- Match `ANSI_ESCAPE_PATTERN = re.compile(r'\x1b\[[0-9;]*m')` at the head
of the character list, returning the remainder after the match. -/
def ansiMatch : List Char → Option (List Char)
  | c1 :: c2 :: rest =>
    if c1 = '\x1b' && c2 = '[' then ansiSkipBody rest else none
  | _ => none

/-- `re.sub` of the ANSI pattern with the empty replacement: the
left-to-right scan of `ANSI_ESCAPE_PATTERN.sub('', s)`.  The `Nat`
argument is structural fuel; each step consumes at least one character,
so fuel equal to the input length never runs out
(`ansiSubAux_fuel_irrel`). -/
def ansiSubAux : Nat → List Char → List Char
  | 0, l => l
  | _, [] => []
  | n + 1, c :: cs =>
    match ansiMatch (c :: cs) with
    | some rest => ansiSubAux n rest
    | none => c :: ansiSubAux n cs

/-- `ANSI_ESCAPE_PATTERN.sub('', ·)` on a character list. -/
def ansiSub (l : List Char) : List Char :=
  ansiSubAux l.length l

/-- `line.rstrip()`: drop trailing whitespace. -/
def pyRstrip (s : String) : String :=
  String.mk ((s.data.reverse.dropWhile isPyWhitespace).reverse)

/-- `self.ANSI_ESCAPE_PATTERN.sub('', line.rstrip())` from `_read_output`. -/
def cleanLine (s : String) : String :=
  String.mk (ansiSub (pyRstrip s).data)

/-- The supervisor-relevant mutable state of `LiveRecorderGUI`, plus the
append-only trace of externally visible actions.  `process` holds the
`subprocess.Popen` handle, modelled by the pid it carries; `process_pid`
is the separately stored `self.process_pid`; `running` is `self.running`.
`tray_enabled` models `self.system_tray and self.system_tray.running`,
read by `_update_status_bar` and fixed for the runs considered here. -/
structure GUIState where
  process : Option Nat
  process_pid : Option Nat
  running : Bool
  start_btn_enabled : Bool
  stop_btn_enabled : Bool
  status_label : String
  status_var : String
  tray_enabled : Bool
  trace : List Event
  deriving DecidableEq

/-- Append one event to the trace. -/
def emit (st : GUIState) (e : Event) : GUIState :=
  { st with trace := st.trace ++ [e] }

/-- `self._log(message, level)`; the display timestamp prefix is abstracted. -/
def logMsg (st : GUIState) (msg : String) (lv : Severity) : GUIState :=
  emit st (.log ⟨msg, lv⟩)

/-- `self.status_label.config(text=s)`. -/
def setStatusLabel (st : GUIState) (s : String) : GUIState :=
  emit { st with status_label := s } (.status s)

/-- `self._update_status_bar()`. -/
def update_status_bar (st : GUIState) : GUIState :=
  let trayStatus := if st.tray_enabled then "启用" else "未启动"
  match st.process_pid with
  | some pid =>
    { st with status_var := "状态：运行中 (PID: " ++ toString pid ++
        ") | 循环检测: 120秒 | 格式: ts → mp4 | 托盘: " ++ trayStatus }
  | none =>
    { st with status_var := "状态：未运行 | 循环检测: 120秒 | 格式: ts → mp4 | 托盘: " ++ trayStatus }

/-- `'=' * 50`, the banner line logged around lifecycle announcements. -/
def banner : String := String.mk (List.replicate 50 '=')

/-- State of a fresh `LiveRecorderGUI` after `__init__` (tray not yet
started): no process, stop button disabled, status label `未运行`. -/
def initState : GUIState :=
  { process := none, process_pid := none, running := false,
    start_btn_enabled := true, stop_btn_enabled := false,
    status_label := "🔴 未运行",
    status_var := "就绪 | 循环检测: 120秒 | 格式: ts → mp4 | 托盘: 启用",
    tray_enabled := false, trace := [] }

/-- Interpreter resolution inside `start_recording`: on win32 prefer
`<script_dir>/venv/Scripts/python.exe` when it exists, else
`sys.executable`; on every other platform, `sys.executable` directly. -/
def resolve_python (platform script_dir sys_executable : String)
    (path_exists : String → Bool) : String :=
  let venv_exe := script_dir ++ "/venv/Scripts/python.exe"
  if platform = "win32" then
    if path_exists venv_exe then venv_exe else sys_executable
  else sys_executable

/-- Outcome of `start_recording`. -/
inductive StartResult
  | alreadyRunning
  | started (pid : Nat)
  | spawnFailure (msg : String)
  deriving DecidableEq

/-- Outcome of `stop_recording`; `stopped forced` records whether the
`kill()` escalation fired. -/
inductive StopResult
  | notRunning
  | stopped (forced : Bool)
  deriving DecidableEq

/-- `start_recording`.  `spawn` is the exogenous result of
`subprocess.Popen` (`Except.error e` models the raised exception).  The
guard `if self.process is not None` only shows a warning dialog and
returns, changing nothing. -/
def start_recording (st : GUIState) (platform script_dir sys_executable : String)
    (path_exists : String → Bool) (ts : String) (spawn : Except String Nat) :
    GUIState × StartResult :=
  if st.process.isSome then
    (st, .alreadyRunning)
  else
    let python_exe := resolve_python platform script_dir sys_executable path_exists
    let main_py := script_dir ++ "/main.py"
    match spawn with
    | .error e =>
      (logMsg st ("启动录制失败: " ++ e) .error, .spawnFailure e)
    | .ok pid =>
      let st := emit st (.popen python_exe main_py)
      let st := { st with process := some pid, process_pid := some pid,
                          running := true,
                          start_btn_enabled := false, stop_btn_enabled := true }
      let st := setStatusLabel st "🟢 运行中"
      let st := update_status_bar st
      let st := logMsg st banner .info
      let st := logMsg st ("[" ++ ts ++ "] 录制进程已启动") .info
      let st := logMsg st ("Python: " ++ python_exe) .info
      let st := logMsg st ("工作目录: " ++ script_dir) .info
      let st := logMsg st banner .info
      (st, .started pid)

/-- First half of `stop_recording`, up to and including
`self.process.terminate()`: the `if self.process is None` guard, the two
announcement log lines, and the terminate signal.  Returns `none` when the
guard rejects the call. -/
def stop_phase1 (st : GUIState) (ts : String) : Option GUIState :=
  if st.process.isNone then
    none
  else
    let st := logMsg st banner .info
    let st := logMsg st ("[" ++ ts ++ "] 正在停止录制...") .info
    some (emit st .terminate)

/-- Second half of `stop_recording`: `wait(timeout=3)`, the `kill()`
escalation on `TimeoutExpired`, clearing of process state, button/status
updates and the closing log lines.  `exits_in_time` is the exogenous fact
of whether the child exited within the 3-second grace period. -/
def stop_phase2 (st : GUIState) (ts2 : String) (exits_in_time : Bool) :
    GUIState × StopResult :=
  let st := if exits_in_time then st
            else logMsg (emit st .kill) "进程已强制终止" .info
  let st := { st with running := false, process := none, process_pid := none,
                      start_btn_enabled := true, stop_btn_enabled := false }
  let st := setStatusLabel st "🔴 未运行"
  let st := update_status_bar st
  let st := logMsg st ("[" ++ ts2 ++ "] 录制进程已停止") .info
  let st := logMsg st banner .info
  (st, .stopped (!exits_in_time))

/-- `stop_recording`, the composition of the two phases. -/
def stop_recording (st : GUIState) (ts ts2 : String) (exits_in_time : Bool) :
    GUIState × StopResult :=
  match stop_phase1 st ts with
  | none => (st, .notRunning)
  | some st1 => stop_phase2 st1 ts2 exits_in_time

/-- `_process_ended`, the callback `_read_output` schedules when the stream
closes and `poll()` reports the child dead. -/
def process_ended (st : GUIState) (ts : String) : GUIState :=
  let st := { st with running := false, process := none, process_pid := none,
                      start_btn_enabled := true, stop_btn_enabled := false }
  let st := setStatusLabel st "🔴 未运行"
  let st := update_status_bar st
  let st := logMsg st banner .info
  let st := logMsg st ("[" ++ ts ++ "] 录制进程已结束") .info
  logMsg st banner .info

/-- One observation of the relay loop: a non-empty line from `readline`,
an empty read (`dead` = whether `poll() is not None`), or a raised read
exception. -/
inductive ReadEvent
  | line (s : String)
  | eof (dead : Bool)
  | readErr (msg : String)

/-- `_read_output`: the relay loop over a finite prefix of observations.
Each iteration re-checks `self.running and self.process`; cleaned lines
and the end/error callbacks are marshalled to the Tk thread in order. -/
def read_output (st : GUIState) (ts : String) : List ReadEvent → GUIState
  | [] => st
  | ev :: rest =>
    if st.running && st.process.isSome then
      match ev with
      | .line s => read_output (logMsg st (cleanLine s) .info) ts rest
      | .eof dead =>
        if dead then process_ended st ts else read_output st ts rest
      | .readErr msg => logMsg st ("读取输出错误: " ++ msg) .error
    else st

/-- The status-label values published along a trace, in order: what a
subscriber to the status signal observes. -/
def statusLabelsOf (tr : List Event) : List String :=
  tr.filterMap (fun e => match e with | .status s => some s | _ => none)

/-- Whether the stored process handle, the stored pid and the running flag
agree: all three set, or all three cleared. -/
def consistent (st : GUIState) : Bool :=
  (st.process.isSome && st.process_pid.isSome && st.running) ||
  (st.process.isNone && st.process_pid.isNone && !st.running)

/-- A concrete state with an active child: the fresh GUI after one
successful `start_recording` (pid 7, on linux). -/
def startedState : GUIState :=
  (start_recording initState "linux" "/app" "/usr/bin/python3"
    (fun _ => false) "T1" (.ok 7)).1

/-- The concrete Start-then-Stop run of the scenario: `startedState`
stopped with the child exiting inside the grace period. -/
def c3run : GUIState :=
  (stop_recording startedState "T2" "T3" true).1

/-- The program state in the middle of a `stop_recording` call on
`startedState`: the two announcement log lines are out and
`self.process.terminate()` has been sent, but the process field has not
yet been cleared (source lines 379-385, before line 390). -/
def midStop : GUIState :=
  (stop_phase1 startedState "T2").getD initState

/-- Event selector: a log line with exactly the given text. -/
def isLogText (t : String) : Event → Bool
  | .log l => l.text = t
  | _ => false

/-- Event selector: the `kill()` signal. -/
def isKill : Event → Bool
  | .kill => true
  | _ => false

/-- Event selector: the `terminate()` signal. -/
def isTerminate : Event → Bool
  | .terminate => true
  | _ => false

theorem ansiSkipBody_length : ∀ (l r : List Char), ansiSkipBody l = some r →
    r.length < l.length := by
  intro l
  induction l with
  | nil => intro r h; simp [ansiSkipBody] at h
  | cons c cs ih =>
    intro r h
    simp only [ansiSkipBody] at h
    by_cases hm : c = 'm'
    · simp [hm] at h
      simp [← h, List.length_cons]
    · by_cases hb : isAnsiBody c = true
      · simp [hm, hb] at h
        have := ih r h
        simp [List.length_cons]
        omega
      · simp [hm, hb] at h

theorem ansiMatch_length : ∀ (l r : List Char), ansiMatch l = some r →
    r.length < l.length := by
  intro l r h
  match l with
  | [] => simp [ansiMatch] at h
  | [c] => simp [ansiMatch] at h
  | c1 :: c2 :: rest =>
    simp only [ansiMatch] at h
    by_cases hc : (c1 = '\x1b' && c2 = '[') = true
    · simp [hc] at h
      have := ansiSkipBody_length rest r h
      simp [List.length_cons]
      omega
    · simp [hc] at h

theorem ansiSubAux_nil : ∀ n, ansiSubAux n [] = []
  | 0 => rfl
  | _ + 1 => rfl

/-- The fuel in `ansiSubAux` is irrelevant as soon as it covers the input
length, so `ansiSub` computes the true fixpoint of the scan. -/
theorem ansiSubAux_fuel_irrel : ∀ (n : Nat) (l : List Char) (m : Nat),
    l.length ≤ n → l.length ≤ m → ansiSubAux n l = ansiSubAux m l := by
  intro n
  induction n with
  | zero =>
    intro l m h1 _
    have hl : l = [] := List.eq_nil_of_length_eq_zero (Nat.le_zero.mp h1)
    subst hl
    rw [ansiSubAux_nil, ansiSubAux_nil]
  | succ n ih =>
    intro l m h1 h2
    match l with
    | [] => rw [ansiSubAux_nil, ansiSubAux_nil]
    | c :: cs =>
      match m with
      | 0 => simp [List.length_cons] at h2
      | m + 1 =>
        simp only [ansiSubAux]
        cases hM : ansiMatch (c :: cs) with
        | some rest =>
          have hr := ansiMatch_length _ _ hM
          exact ih rest m (by simp [List.length_cons] at h1 hr ⊢; omega)
            (by simp [List.length_cons] at h2 hr ⊢; omega)
        | none =>
          have hc : cs.length ≤ n := by simp [List.length_cons] at h1; omega
          have hc2 : cs.length ≤ m := by simp [List.length_cons] at h2; omega
          rw [ih cs m hc hc2]

@[simp] theorem logMsg_process (st : GUIState) (m : String) (lv : Severity) :
    (logMsg st m lv).process = st.process := rfl

@[simp] theorem logMsg_process_pid (st : GUIState) (m : String) (lv : Severity) :
    (logMsg st m lv).process_pid = st.process_pid := rfl

@[simp] theorem logMsg_running (st : GUIState) (m : String) (lv : Severity) :
    (logMsg st m lv).running = st.running := rfl

@[simp] theorem logMsg_status_label (st : GUIState) (m : String) (lv : Severity) :
    (logMsg st m lv).status_label = st.status_label := rfl

@[simp] theorem logMsg_trace (st : GUIState) (m : String) (lv : Severity) :
    (logMsg st m lv).trace = st.trace ++ [.log ⟨m, lv⟩] := rfl

@[simp] theorem update_status_bar_process (st : GUIState) :
    (update_status_bar st).process = st.process := by
  unfold update_status_bar
  cases st.process_pid <;> rfl

@[simp] theorem update_status_bar_process_pid (st : GUIState) :
    (update_status_bar st).process_pid = st.process_pid := by
  unfold update_status_bar
  cases st.process_pid <;> rfl

@[simp] theorem update_status_bar_running (st : GUIState) :
    (update_status_bar st).running = st.running := by
  unfold update_status_bar
  cases st.process_pid <;> rfl

@[simp] theorem update_status_bar_status_label (st : GUIState) :
    (update_status_bar st).status_label = st.status_label := by
  unfold update_status_bar
  cases st.process_pid <;> rfl

@[simp] theorem update_status_bar_trace (st : GUIState) :
    (update_status_bar st).trace = st.trace := by
  unfold update_status_bar
  cases st.process_pid <;> rfl

/-- Full characterization of `stop_recording` on a state with an active
process: the fields it clears, the event trace it appends (terminate
first, the kill escalation only in the timeout case), and its result. -/
theorem stop_recording_active (st : GUIState) (ts ts2 : String) (e : Bool)
    (h : st.process.isSome = true) :
    (stop_recording st ts ts2 e).1.process = none ∧
    (stop_recording st ts ts2 e).1.process_pid = none ∧
    (stop_recording st ts ts2 e).1.running = false ∧
    (stop_recording st ts ts2 e).1.status_label = "🔴 未运行" ∧
    (stop_recording st ts ts2 e).1.trace
      = st.trace ++
        ([Event.log ⟨banner, .info⟩,
          Event.log ⟨"[" ++ ts ++ "] 正在停止录制...", .info⟩,
          Event.terminate] ++
         (if e then [] else [Event.kill, Event.log ⟨"进程已强制终止", .info⟩]) ++
         [Event.status "🔴 未运行",
          Event.log ⟨"[" ++ ts2 ++ "] 录制进程已停止", .info⟩,
          Event.log ⟨banner, .info⟩]) ∧
    (stop_recording st ts ts2 e).2 = .stopped (!e) := by
  have hn : st.process.isNone = false := by
    cases hp : st.process with
    | none => rw [hp] at h; simp at h
    | some v => simp
  cases e <;>
    simp [stop_recording, stop_phase1, stop_phase2, hn, setStatusLabel, emit,
      logMsg, List.append_assoc]

/-- Full characterization of `_process_ended`: clears the process state
and appends the Idle status event plus the three closing log lines. -/
theorem process_ended_spec (st : GUIState) (ts : String) :
    (process_ended st ts).process = none ∧
    (process_ended st ts).process_pid = none ∧
    (process_ended st ts).running = false ∧
    (process_ended st ts).status_label = "🔴 未运行" ∧
    (process_ended st ts).trace
      = st.trace ++ [Event.status "🔴 未运行", Event.log ⟨banner, .info⟩,
          Event.log ⟨"[" ++ ts ++ "] 录制进程已结束", .info⟩,
          Event.log ⟨banner, .info⟩] := by
  simp [process_ended, setStatusLabel, emit, logMsg, List.append_assoc]

/-- Two strings of the shape `prefix ++ middle ++ literal` differ whenever
the two literals have different last characters. -/
theorem append3_ne (p1 t1 s1 p2 t2 s2 : String)
    (h1 : s1.data ≠ []) (h2 : s2.data ≠ [])
    (hne : s1.data.getLast? ≠ s2.data.getLast?) :
    p1 ++ t1 ++ s1 ≠ p2 ++ t2 ++ s2 := by
  intro h
  apply hne
  have hd := congrArg String.data h
  simp only [String.data_append] at hd
  calc s1.data.getLast? = ((p1.data ++ t1.data) ++ s1.data).getLast? :=
        (List.getLast?_append_of_ne_nil _ h1).symm
    _ = ((p2.data ++ t2.data) ++ s2.data).getLast? := by rw [hd]
    _ = s2.data.getLast? := List.getLast?_append_of_ne_nil _ h2

/-- The unexpected-exit announcement is never equal to the user-requested
stop announcement, whatever timestamps the two embed. -/
theorem ended_ne_stopped (ts ts' : String) :
    "[" ++ ts ++ "] 录制进程已结束" ≠ "[" ++ ts' ++ "] 录制进程已停止" :=
  append3_ne _ _ _ _ _ _ (by decide) (by decide) (by decide)

/-- A string starting with `[` (a timestamped lifecycle message) never
equals a string whose first character is not `[`. -/
theorem bracket_ne (ts suf q : String) (hq : q.data.head? ≠ some '[') :
    "[" ++ ts ++ suf ≠ q := by
  intro h
  apply hq
  rw [← congrArg String.data h]
  simp only [String.data_append]
  rfl

/-- C1: when a SupervisedProcess is active (`self.process is not None`),
`start_recording` refuses with `AlreadyRunning` and the whole state —
process handle, stored pid, running flag, status label and event trace
(hence no `Popen` call, no new child) — is left exactly as it was. -/
theorem C1_start_already_running (st : GUIState)
    (platform script_dir sys_executable : String) (path_exists : String → Bool)
    (ts : String) (spawn : Except String Nat)
    (h : st.process.isSome = true) :
    start_recording st platform script_dir sys_executable path_exists ts spawn
      = (st, .alreadyRunning) := by
  simp [start_recording, h]

theorem C1_witness :
    startedState.process.isSome = true ∧
    start_recording startedState "linux" "/app" "/usr/bin/python3"
        (fun _ => false) "T9" (.ok 8) = (startedState, .alreadyRunning) :=
  ⟨by decide, C1_start_already_running startedState "linux" "/app"
    "/usr/bin/python3" (fun _ => false) "T9" (.ok 8) (by decide)⟩

/-- C2: when no SupervisedProcess is active (`self.process is None`),
`stop_recording` refuses with `NotRunning` and returns the state exactly
as it was: no status change, no terminate or kill signal, no log line. -/
theorem C2_stop_not_running (st : GUIState) (ts ts2 : String) (e : Bool)
    (h : st.process = none) :
    stop_recording st ts ts2 e = (st, .notRunning) := by
  simp [stop_recording, stop_phase1, h]

theorem C2_witness :
    initState.process = none ∧
    stop_recording initState "T4" "T5" true = (initState, .notRunning) :=
  ⟨rfl, C2_stop_not_running initState "T4" "T5" true rfl⟩

/-- C3 (counterexample): in the concrete Start-then-Stop run, the status
value history a subscriber observes is `未运行 (Idle), 运行中 (Running),
未运行 (Idle)` — three values — so no choice of a `Stopping` value makes
it the claimed four-value sequence `Idle, Running, Stopping, Idle`: the
code publishes no status between accepting `Stop` and reaching `Idle`. -/
theorem C3_counterexample :
    ¬ ∃ s : String,
      "🔴 未运行" :: statusLabelsOf c3run.trace
        = ["🔴 未运行", "🟢 运行中", s, "🔴 未运行"] := by
  rintro ⟨s, h⟩
  have h3 : statusLabelsOf c3run.trace = ["🟢 运行中", "🔴 未运行"] := by decide
  rw [h3] at h
  simp at h

/-- C3 (amended): a successful `Stop` on an active process sends the
graceful terminate first, force-kills only when the 3-second wait times
out, clears the SupervisedProcess and publishes Idle (`未运行`); there is
no `Stopping` status value, so a subscriber over a Start-then-Stop run
observes exactly `Idle, Running, Idle`. -/
theorem C3_stop_protocol (st : GUIState) (ts ts2 : String) (e : Bool)
    (h : st.process.isSome = true) :
    ((stop_recording st ts ts2 e).1.process = none ∧
     (stop_recording st ts ts2 e).1.running = false ∧
     (stop_recording st ts ts2 e).1.status_label = "🔴 未运行" ∧
     (stop_recording st ts ts2 e).1.trace
       = st.trace ++
         ([Event.log ⟨banner, .info⟩,
           Event.log ⟨"[" ++ ts ++ "] 正在停止录制...", .info⟩,
           Event.terminate] ++
          (if e then [] else [Event.kill, Event.log ⟨"进程已强制终止", .info⟩]) ++
          [Event.status "🔴 未运行",
           Event.log ⟨"[" ++ ts2 ++ "] 录制进程已停止", .info⟩,
           Event.log ⟨banner, .info⟩]) ∧
     (stop_recording st ts ts2 e).2 = .stopped (!e)) ∧
    "🔴 未运行" :: statusLabelsOf c3run.trace
      = ["🔴 未运行", "🟢 运行中", "🔴 未运行"] := by
  refine ⟨?_, by decide⟩
  obtain ⟨h1, -, h3, h4, h5, h6⟩ := stop_recording_active st ts ts2 e h
  exact ⟨h1, h3, h4, h5, h6⟩

theorem C3_witness :
    startedState.process.isSome = true ∧
    (((stop_recording startedState "T2" "T3" true).1.process = none ∧
      (stop_recording startedState "T2" "T3" true).1.running = false ∧
      (stop_recording startedState "T2" "T3" true).1.status_label = "🔴 未运行" ∧
      (stop_recording startedState "T2" "T3" true).1.trace
        = startedState.trace ++
          ([Event.log ⟨banner, .info⟩,
            Event.log ⟨"[" ++ "T2" ++ "] 正在停止录制...", .info⟩,
            Event.terminate] ++
           (if true then []
            else [Event.kill, Event.log ⟨"进程已强制终止", .info⟩]) ++
           [Event.status "🔴 未运行",
            Event.log ⟨"[" ++ "T3" ++ "] 录制进程已停止", .info⟩,
            Event.log ⟨banner, .info⟩]) ∧
      (stop_recording startedState "T2" "T3" true).2 = .stopped (!true)) ∧
     "🔴 未运行" :: statusLabelsOf c3run.trace
       = ["🔴 未运行", "🟢 运行中", "🔴 未运行"]) :=
  ⟨by decide, C3_stop_protocol startedState "T2" "T3" true (by decide)⟩

/-- C4: for a `Stop` call on an active process, if the child exits inside
the 3-second `wait` no `kill()` is sent and no forced-kill log line is
emitted; on `TimeoutExpired` exactly one `kill()` is sent, exactly one
forced-kill log line (`进程已强制终止`) is emitted, and the status label
still reaches Idle (`未运行`). -/
theorem C4_kill_escalation (st : GUIState) (ts ts2 : String) (e : Bool)
    (h : st.process.isSome = true) :
    (((stop_recording st ts ts2 e).1.trace.drop st.trace.length).filter
        isKill).length = (if e then 0 else 1) ∧
    (((stop_recording st ts ts2 e).1.trace.drop st.trace.length).filter
        (isLogText "进程已强制终止")).length = (if e then 0 else 1) ∧
    (stop_recording st ts ts2 e).1.status_label = "🔴 未运行" := by
  obtain ⟨-, -, -, hs, htr, -⟩ := stop_recording_active st ts ts2 e h
  rw [htr]
  rw [List.drop_left]
  refine ⟨?_, ?_, hs⟩ <;>
  · have hne1 : ("[" ++ ts ++ "] 正在停止录制..." : String) ≠ "进程已强制终止" :=
      bracket_ne _ _ _ (by decide)
    have hne2 : ("[" ++ ts2 ++ "] 录制进程已停止" : String) ≠ "进程已强制终止" :=
      bracket_ne _ _ _ (by decide)
    have hb : (banner : String) ≠ "进程已强制终止" := by decide
    cases e <;> simp [isKill, isLogText, hne1, hne2, hb]

theorem C4_witness :
    startedState.process.isSome = true ∧
    ((((stop_recording startedState "T2" "T3" false).1.trace.drop
         startedState.trace.length).filter isKill).length
        = (if false then 0 else 1) ∧
     (((stop_recording startedState "T2" "T3" false).1.trace.drop
         startedState.trace.length).filter (isLogText "进程已强制终止")).length
        = (if false then 0 else 1) ∧
     (stop_recording startedState "T2" "T3" false).1.status_label = "🔴 未运行") :=
  ⟨by decide, C4_kill_escalation startedState "T2" "T3" false (by decide)⟩

/-- C5: when the output stream closes and `poll()` reports the child dead
while `running` is true and the handle is still held (no Stop requested),
the relay hands control to `_process_ended`, which clears handle, pid and
running flag, publishes Idle (`未运行`) directly — the only status value
published, so no `Stopping` phase — and emits exactly one process-ended
log line (`录制进程已结束`), whose wording differs from the
user-requested-stop line (`录制进程已停止`) for any timestamps. -/
theorem C5_unexpected_exit (st : GUIState) (ts : String) (rest : List ReadEvent)
    (h1 : st.running = true) (h2 : st.process.isSome = true) :
    read_output st ts (ReadEvent.eof true :: rest) = process_ended st ts ∧
    (process_ended st ts).process = none ∧
    (process_ended st ts).process_pid = none ∧
    (process_ended st ts).running = false ∧
    (process_ended st ts).status_label = "🔴 未运行" ∧
    statusLabelsOf ((process_ended st ts).trace.drop st.trace.length)
      = ["🔴 未运行"] ∧
    (((process_ended st ts).trace.drop st.trace.length).filter
        (isLogText ("[" ++ ts ++ "] 录制进程已结束"))).length = 1 ∧
    (∀ ts', ("[" ++ ts ++ "] 录制进程已结束" : String)
        ≠ "[" ++ ts' ++ "] 录制进程已停止") := by
  obtain ⟨p1, p2, p3, p4, p5⟩ := process_ended_spec st ts
  refine ⟨?_, p1, p2, p3, p4, ?_, ?_, fun ts' => ended_ne_stopped ts ts'⟩
  · simp [read_output, h1, h2]
  · rw [p5, List.drop_left]
    simp [statusLabelsOf]
  · rw [p5, List.drop_left]
    have hb : (banner : String) ≠ "[" ++ ts ++ "] 录制进程已结束" :=
      fun hh => bracket_ne ts _ banner (by decide) hh.symm
    simp [isLogText, hb]

theorem C5_witness :
    startedState.running = true ∧ startedState.process.isSome = true ∧
    (read_output startedState "T6" [ReadEvent.eof true]
        = process_ended startedState "T6" ∧
     (process_ended startedState "T6").process = none ∧
     (process_ended startedState "T6").process_pid = none ∧
     (process_ended startedState "T6").running = false ∧
     (process_ended startedState "T6").status_label = "🔴 未运行" ∧
     statusLabelsOf ((process_ended startedState "T6").trace.drop
        startedState.trace.length) = ["🔴 未运行"] ∧
     (((process_ended startedState "T6").trace.drop
         startedState.trace.length).filter
        (isLogText ("[" ++ "T6" ++ "] 录制进程已结束"))).length = 1 ∧
     (∀ ts', ("[" ++ "T6" ++ "] 录制进程已结束" : String)
        ≠ "[" ++ ts' ++ "] 录制进程已停止")) :=
  ⟨by decide, by decide,
    C5_unexpected_exit startedState "T6" [] (by decide) (by decide)⟩

/-- The relay forwards each raw line as `cleanLine` of it, in order. -/
theorem read_output_lines (ts : String) (ss : List String) :
    ∀ st : GUIState, st.running = true → st.process.isSome = true →
    (read_output st ts (ss.map ReadEvent.line)).trace
      = st.trace ++ ss.map (fun s => Event.log ⟨cleanLine s, .info⟩) := by
  induction ss with
  | nil => intro st _ _; simp [read_output]
  | cons s rest ih =>
    intro st h1 h2
    have hstep : read_output st ts (ReadEvent.line s :: rest.map ReadEvent.line)
        = read_output (logMsg st (cleanLine s) .info) ts
            (rest.map ReadEvent.line) := by
      simp [read_output, h1, h2]
    simp only [List.map_cons]
    rw [hstep, ih _ (by simp [h1]) (by simp [h2])]
    simp [List.append_assoc]

/-- C6: every raw line the relay reads is delivered to the log sink as
`ANSI_ESCAPE_PATTERN.sub('', line.rstrip())` — trailing whitespace
trimmed, then every `ESC [ ... m` sequence removed — and in particular the
raw line `"\x1b[31mERROR\x1b[0m"` is delivered as `"ERROR"`, with no
escape byte remaining in it. -/
theorem C6_relay_cleaning (st : GUIState) (ts : String) (ss : List String)
    (h1 : st.running = true) (h2 : st.process.isSome = true) :
    (read_output st ts (ss.map ReadEvent.line)).trace
      = st.trace ++ ss.map (fun s => Event.log ⟨cleanLine s, .info⟩) ∧
    cleanLine "\x1b[31mERROR\x1b[0m" = "ERROR" ∧
    (∀ c ∈ (cleanLine "\x1b[31mERROR\x1b[0m").data, c ≠ '\x1b') :=
  ⟨read_output_lines ts ss st h1 h2, by decide, by decide⟩

theorem C6_witness :
    startedState.running = true ∧ startedState.process.isSome = true ∧
    ((read_output startedState "T7"
        (["\x1b[31mERROR\x1b[0m"].map ReadEvent.line)).trace
      = startedState.trace ++
        ["\x1b[31mERROR\x1b[0m"].map
          (fun s => Event.log ⟨cleanLine s, .info⟩) ∧
     cleanLine "\x1b[31mERROR\x1b[0m" = "ERROR" ∧
     (∀ c ∈ (cleanLine "\x1b[31mERROR\x1b[0m").data, c ≠ '\x1b')) :=
  ⟨by decide, by decide,
    C6_relay_cleaning startedState "T7" ["\x1b[31mERROR\x1b[0m"]
      (by decide) (by decide)⟩

/-- C7: a read exception mid-stream makes the relay emit exactly one
`Error`-severity log line (`读取输出错误: ...`) and terminate — the result
does not depend on any later stream content — while the process handle,
pid, running flag and status label are left untouched. -/
theorem C7_read_error (st : GUIState) (ts msg : String) (rest : List ReadEvent)
    (h1 : st.running = true) (h2 : st.process.isSome = true) :
    read_output st ts (ReadEvent.readErr msg :: rest)
      = logMsg st ("读取输出错误: " ++ msg) .error ∧
    (read_output st ts (ReadEvent.readErr msg :: rest)).process = st.process ∧
    (read_output st ts (ReadEvent.readErr msg :: rest)).process_pid
      = st.process_pid ∧
    (read_output st ts (ReadEvent.readErr msg :: rest)).running = st.running ∧
    (read_output st ts (ReadEvent.readErr msg :: rest)).status_label
      = st.status_label ∧
    (read_output st ts (ReadEvent.readErr msg :: rest)).trace
      = st.trace ++ [Event.log ⟨"读取输出错误: " ++ msg, .error⟩] := by
  have hmain : read_output st ts (ReadEvent.readErr msg :: rest)
      = logMsg st ("读取输出错误: " ++ msg) .error := by
    simp [read_output, h1, h2]
  rw [hmain]
  exact ⟨rfl, rfl, rfl, rfl, rfl, rfl⟩

theorem C7_witness :
    startedState.running = true ∧ startedState.process.isSome = true ∧
    (read_output startedState "T8" [ReadEvent.readErr "Bad file descriptor",
        ReadEvent.eof true]
      = logMsg startedState ("读取输出错误: " ++ "Bad file descriptor") .error ∧
     (read_output startedState "T8" [ReadEvent.readErr "Bad file descriptor",
        ReadEvent.eof true]).process = startedState.process ∧
     (read_output startedState "T8" [ReadEvent.readErr "Bad file descriptor",
        ReadEvent.eof true]).process_pid = startedState.process_pid ∧
     (read_output startedState "T8" [ReadEvent.readErr "Bad file descriptor",
        ReadEvent.eof true]).running = startedState.running ∧
     (read_output startedState "T8" [ReadEvent.readErr "Bad file descriptor",
        ReadEvent.eof true]).status_label = startedState.status_label ∧
     (read_output startedState "T8" [ReadEvent.readErr "Bad file descriptor",
        ReadEvent.eof true]).trace
       = startedState.trace ++
         [Event.log ⟨"读取输出错误: " ++ "Bad file descriptor", .error⟩]) :=
  ⟨by decide, by decide,
    C7_read_error startedState "T8" "Bad file descriptor"
      [ReadEvent.eof true] (by decide) (by decide)⟩

/-- C8 (counterexample): `midStop` is the program state in the middle of a
`Stop` on the started GUI — terminate already sent, process not yet
cleared.  A second `stop_recording` call there is not rejected with any
`stopping already in progress` condition: it reports success and re-sends
the termination signal, so the run's trace holds two terminate events. -/
theorem C8_counterexample :
    midStop.process.isSome = true ∧
    (stop_recording midStop "T4" "T5" true).2 = StopResult.stopped false ∧
    ((stop_recording midStop "T4" "T5" true).1.trace.filter
        isTerminate).length = 2 :=
  ⟨by decide, by decide, by decide⟩

/-- C8 (amended): the only guard in `stop_recording` is `process is None`,
and the process field is cleared only at the end of the call; hence in
every state where the handle is still present — including mid-stop states
where terminate has already been sent — a further `stop_recording` call is
accepted and sends the termination signal again.  The code has no
`stopping already in progress` error condition. -/
theorem C8_stop_reentry (st : GUIState) (ts ts2 : String) (e : Bool)
    (h : st.process.isSome = true) :
    (stop_recording st ts ts2 e).2 = .stopped (!e) ∧
    Event.terminate ∈
      (stop_recording st ts ts2 e).1.trace.drop st.trace.length := by
  obtain ⟨-, -, -, -, htr, hres⟩ := stop_recording_active st ts ts2 e h
  refine ⟨hres, ?_⟩
  rw [htr, List.drop_left]
  cases e <;> simp

theorem C8_witness :
    midStop.process.isSome = true ∧
    ((stop_recording midStop "T4" "T5" true).2 = .stopped (!true) ∧
     Event.terminate ∈
       (stop_recording midStop "T4" "T5" true).1.trace.drop
         midStop.trace.length) :=
  ⟨by decide, C8_stop_reentry midStop "T4" "T5" true (by decide)⟩

/-- C9 (counterexample): the local project-scoped interpreter is not
preferred on every platform.  With a filesystem in which every path —
including `<script_dir>/venv/Scripts/python.exe` — exists, resolution on
`linux` still yields `sys.executable`, and `start_recording` spawns the
ambient interpreter, not the local one. -/
theorem C9_counterexample :
    resolve_python "linux" "/app" "/usr/bin/python3" (fun _ => true)
      = "/usr/bin/python3" ∧
    (fun (_ : String) => true) ("/app" ++ "/venv/Scripts/python.exe") = true ∧
    ("/usr/bin/python3" : String) ≠ "/app" ++ "/venv/Scripts/python.exe" ∧
    (start_recording initState "linux" "/app" "/usr/bin/python3"
        (fun _ => true) "T1" (.ok 3)).1.trace.head?
      = some (.popen "/usr/bin/python3" ("/app" ++ "/main.py")) :=
  ⟨rfl, rfl, by decide, by decide⟩

/-- C9 (amended): the interpreter search order is platform-specific: only
on win32 is the local `venv/Scripts/python.exe` preferred when it exists,
falling back to `sys.executable`; on every other platform
`sys.executable` is used unconditionally, whether or not the local
runtime is present. -/
theorem C9_interpreter_resolution (script_dir sys_executable : String)
    (path_exists : String → Bool) :
    (∀ platform, platform ≠ "win32" →
       resolve_python platform script_dir sys_executable path_exists
         = sys_executable) ∧
    (path_exists (script_dir ++ "/venv/Scripts/python.exe") = true →
       resolve_python "win32" script_dir sys_executable path_exists
         = script_dir ++ "/venv/Scripts/python.exe") ∧
    (path_exists (script_dir ++ "/venv/Scripts/python.exe") = false →
       resolve_python "win32" script_dir sys_executable path_exists
         = sys_executable) := by
  refine ⟨fun p hp => ?_, fun hx => ?_, fun hx => ?_⟩ <;>
    simp [resolve_python, *]

theorem C9_witness :
    (("linux" : String) ≠ "win32" ∧
      resolve_python "linux" "/a" "/usr/bin/python3" (fun _ => true)
        = "/usr/bin/python3") ∧
    ((fun (_ : String) => true) ("/a" ++ "/venv/Scripts/python.exe") = true ∧
      resolve_python "win32" "/a" "/usr/bin/python3" (fun _ => true)
        = "/a" ++ "/venv/Scripts/python.exe") :=
  ⟨⟨by decide,
    (C9_interpreter_resolution "/a" "/usr/bin/python3" (fun _ => true)).1
      "linux" (by decide)⟩,
   ⟨rfl,
    (C9_interpreter_resolution "/a" "/usr/bin/python3" (fun _ => true)).2.1
      rfl⟩⟩

/-- Relay runs preserve handle/pid/flag consistency. -/
theorem read_output_consistent (ts : String) (evs : List ReadEvent) :
    ∀ st : GUIState, consistent st = true →
      consistent (read_output st ts evs) = true := by
  induction evs with
  | nil => intro st h; simpa [read_output] using h
  | cons ev rest ih =>
    intro st h
    by_cases hg : (st.running && st.process.isSome) = true
    · match ev with
      | .line s =>
        rw [show read_output st ts (.line s :: rest)
              = read_output (logMsg st (cleanLine s) .info) ts rest from by
            simp [read_output, hg]]
        exact ih _ (by simpa [consistent] using h)
      | .eof true =>
        rw [show read_output st ts (.eof true :: rest)
              = process_ended st ts from by simp [read_output, hg]]
        obtain ⟨p1, p2, p3, -, -⟩ := process_ended_spec st ts
        simp [consistent, p1, p2, p3]
      | .eof false =>
        rw [show read_output st ts (.eof false :: rest)
              = read_output st ts rest from by simp [read_output, hg]]
        exact ih _ h
      | .readErr msg =>
        rw [show read_output st ts (.readErr msg :: rest)
              = logMsg st ("读取输出错误: " ++ msg) .error from by
            simp [read_output, hg]]
        simpa [consistent] using h
    · simpa [read_output, hg] using h

/-- C10: handle/pid/running-flag consistency — all three set or all three
cleared — holds for the fresh GUI and is preserved by every completed
operation: `start_recording` (accepted, rejected, or spawn failure),
`stop_recording` (accepted or rejected), the `_process_ended` callback,
and any relay run. -/
theorem C10_state_consistency :
    consistent initState = true ∧
    ∀ st : GUIState, consistent st = true →
      (∀ platform script_dir sys_executable path_exists ts spawn,
        consistent (start_recording st platform script_dir sys_executable
          path_exists ts spawn).1 = true) ∧
      (∀ ts ts2 e, consistent (stop_recording st ts ts2 e).1 = true) ∧
      (∀ ts, consistent (process_ended st ts) = true) ∧
      (∀ ts evs, consistent (read_output st ts evs) = true) := by
  refine ⟨by decide, fun st hst => ⟨?_, ?_, ?_, ?_⟩⟩
  · intro platform script_dir sys_executable path_exists ts spawn
    by_cases hp : st.process.isSome = true
    · simpa [start_recording, hp] using hst
    · have hnone : st.process = none := by
        cases hq : st.process with
        | none => rfl
        | some v => rw [hq] at hp; simp at hp
      have hrest : st.process_pid = none ∧ st.running = false := by
        simp [consistent, hnone, Bool.not_eq_true'] at hst
        exact hst
      match spawn with
      | .error e =>
        simp [start_recording, hp, consistent, hnone, hrest.1, hrest.2]
      | .ok pid =>
        simp [start_recording, hp, consistent, setStatusLabel, emit]
  · intro ts ts2 e
    by_cases hp : st.process.isSome = true
    · obtain ⟨p1, p2, p3, -, -, -⟩ := stop_recording_active st ts ts2 e hp
      simp [consistent, p1, p2, p3]
    · have hnone : st.process = none := by
        cases hq : st.process with
        | none => rfl
        | some v => rw [hq] at hp; simp at hp
      simpa [stop_recording, stop_phase1, hnone] using hst
  · intro ts
    obtain ⟨p1, p2, p3, -, -⟩ := process_ended_spec st ts
    simp [consistent, p1, p2, p3]
  · intro ts evs
    exact read_output_consistent ts evs st hst

theorem C10_witness :
    consistent startedState = true ∧
    consistent (stop_recording startedState "T2" "T3" false).1 = true ∧
    consistent (process_ended startedState "T6") = true :=
  ⟨by decide,
   ((C10_state_consistency.2 startedState (by decide)).2.1) "T2" "T3" false,
   ((C10_state_consistency.2 startedState (by decide)).2.2.1) "T6"⟩
